import Mathlib

/-!
Shallow embedding of the Novel-Noted reading-tracker data layer
(src/utils/firestoreStorage.ts, src/utils/googleBooks.ts,
src/app/page.tsx, src/app/book/[id]/page.tsx) and proofs about it.

Strings are modelled as Lean `String`/`List Char`; JavaScript `Date`
values as `Nat` millisecond timestamps (Firestore `Timestamp`
conversion is value-preserving and is modelled as the identity);
JavaScript numbers as `Nat`/`Int`/`ℚ` (the arithmetic in scope is
exact on these values).  `undefined`/missing fields are `Option`.
Remote calls (Firestore, HTTP fetch) are modelled by explicit oracle
parameters.
-/

namespace NovelNoted

/-! ## JavaScript string primitives -/

/-- The JS regex `\s` class (WhiteSpace and LineTerminator): the
characters relevant here are space, tab, LF, CR, VT, FF, NBSP, BOM. -/
def isJsSpace (c : Char) : Bool :=
  c = ' ' || c = '\t' || c = '\n' || c = '\r' || c.toNat = 11 || c.toNat = 12 ||
  c.toNat = 0xa0 || c.toNat = 0xfeff

/-- The JS regex `.` (without the `s` flag): any character except a
line terminator. -/
def isDot (c : Char) : Bool :=
  !(c = '\n' || c = '\r' || c.toNat = 0x2028 || c.toNat = 0x2029)

/-- Value of a `[0-9]+` digit run, i.e. `parseInt(digits, 10)`. -/
def digitsToNat (cs : List Char) : Nat :=
  cs.foldl (fun n c => 10 * n + (c.toNat - '0'.toNat)) 0

/-- JS `String.prototype.trim`: strip leading and trailing whitespace. -/
def jsTrim (cs : List Char) : List Char :=
  ((cs.dropWhile isJsSpace).reverse.dropWhile isJsSpace).reverse

/-- `trim` on `String`. -/
def jsTrimS (s : String) : String :=
  String.mk (jsTrim s.toList)

/-- `pre` is an initial run of `s` (character-wise equality). -/
def leadsWith : List Char → List Char → Bool
  | [], _ => true
  | _ :: _, [] => false
  | a :: as, b :: bs => a = b && leadsWith as bs

/-- JS `String.prototype.includes`: `needle` occurs contiguously in `hay`. -/
def containsSub : List Char → List Char → Bool
  | hay, needle =>
    if leadsWith needle hay then true
    else
      match hay with
      | [] => false
      | _ :: rest => containsSub rest needle

/-- `includes` on `String`. -/
def containsStr (hay needle : String) : Bool :=
  containsSub hay.toList needle.toList

/-- JS `String.prototype.replace` with a string pattern: replace the
first occurrence of `needle` by `repl`, or return the string unchanged
if it does not occur. -/
def replaceFirst (needle repl : List Char) : List Char → List Char
  | [] => if needle = [] then repl else []
  | c :: rest =>
    if leadsWith needle (c :: rest) then repl ++ (c :: rest).drop needle.length
    else c :: replaceFirst needle repl rest

/-- `coverUrl.replace('http:', 'https:')` from the metadata client. -/
def replaceHttp (s : String) : String :=
  String.mk (replaceFirst "http:".toList "https:".toList s.toList)

/-- JS truthiness of an optional number: `undefined` and `0` are falsy. -/
def jsTruthyNat : Option Nat → Bool
  | some n => n != 0
  | none => false

/-- JS truthiness of an optional string: `undefined` and `""` are falsy. -/
def jsTruthyStr : Option String → Bool
  | some s => s != ""
  | none => false

/-- JS `a || b` on optional strings: `b` when `a` is absent or empty. -/
def jsOrStr (a b : Option String) : Option String :=
  if jsTruthyStr a then a else b

/-! ## Backtracking matcher combinators

The series heuristic in `googleBooks.ts` uses six anchored regular
expressions built from literals, `\s*`, `\d+`, lazy `(.+?)`-style
groups and greedy runs.  Each combinator takes the continuation for
the rest of the pattern and implements the exact JS backtracking
order: lazy groups try the shortest capture first, greedy runs the
longest, giving back one character at a time on failure. -/

section Combinators

variable {α : Type}

/-- Lazy `(X+?)` body: `acc` is the capture so far (nonempty); first
try the continuation, then extend the capture by one `p`-character. -/
def lazyPlusAux (p : Char → Bool) (k : List Char → List Char → Option α) :
    List Char → List Char → Option α
  | acc, rest =>
    match k acc rest with
    | some r => some r
    | none =>
      match rest with
      | [] => none
      | c :: rest' => if p c then lazyPlusAux p k (acc ++ [c]) rest' else none

/-- Lazy one-or-more run of `p`-characters, shortest capture first. -/
def lazyPlus (p : Char → Bool) (k : List Char → List Char → Option α) :
    List Char → Option α
  | [] => none
  | c :: rest => if p c then lazyPlusAux p k [c] rest else none

/-- Greedy `\s*`-style run (no capture): consume as many
`p`-characters as possible, backtracking one at a time. -/
def greedyStar (p : Char → Bool) (k : List Char → Option α) :
    List Char → Option α
  | [] => k []
  | c :: rest =>
    if p c then
      match greedyStar p k rest with
      | some r => some r
      | none => k (c :: rest)
    else k (c :: rest)

/-- Greedy one-or-more body with capture, longest first. -/
def greedyPlusAux (p : Char → Bool) (k : List Char → List Char → Option α) :
    List Char → List Char → Option α
  | acc, [] => k acc []
  | acc, c :: rest =>
    if p c then
      match greedyPlusAux p k (acc ++ [c]) rest with
      | some r => some r
      | none => k acc (c :: rest)
    else k acc (c :: rest)

/-- Greedy one-or-more run of `p`-characters with capture, e.g. `(\d+)`. -/
def greedyPlus (p : Char → Bool) (k : List Char → List Char → Option α) :
    List Char → Option α
  | [] => none
  | c :: rest => if p c then greedyPlusAux p k [c] rest else none

/-- A literal character. -/
def litc (c : Char) (k : List Char → Option α) : List Char → Option α
  | [] => none
  | c' :: rest => if c' = c then k rest else none

/-- A literal string, compared case-insensitively (the `/i` flag). -/
def litCI : List Char → (List Char → Option α) → List Char → Option α
  | [], k, cs => k cs
  | _ :: _, _, [] => none
  | c :: s, k, c' :: cs => if c'.toLower = c.toLower then litCI s k cs else none

/-- The `$` anchor: succeed with `v` only at the end of the input. -/
def atEnd (v : α) : List Char → Option α
  | [] => some v
  | _ :: _ => none

end Combinators

/-! ## extractSeriesInfo (googleBooks.ts) -/

/-- Result of `extractSeriesInfo`. -/
structure SeriesInfo where
  cleanTitle : String
  series : Option String := none
  seriesNumber : Option Nat := none
deriving Repr, DecidableEq

/-- Result built from groups in order (title, series, number) — the
`else` dispatch branch, used by patterns whose first group is the
title. -/
def buildTSN (g1 g2 g3 : List Char) : SeriesInfo :=
  { cleanTitle := String.mk (jsTrim g1)
    series := some (String.mk (jsTrim g2))
    seriesNumber := some (digitsToNat g3) }

/-- Result built from groups in order (series, number, title) — the
dispatch branches for the `"Series #N: Title"` and
`"Series Book N: Title"` patterns. -/
def buildSNT (g1 g2 g3 : List Char) : SeriesInfo :=
  { cleanTitle := String.mk (jsTrim g3)
    series := some (String.mk (jsTrim g1))
    seriesNumber := some (digitsToNat g2) }

/-- Pattern 1: `/^(.+?)\s*\(([^)]+?)\s*#(\d+)\)$/` — "Title (Series #N)". -/
def seriesPat1 : List Char → Option SeriesInfo :=
  lazyPlus isDot fun g1 =>
    greedyStar isJsSpace <| litc '(' <|
      lazyPlus (· != ')') fun g2 =>
        greedyStar isJsSpace <| litc '#' <|
          greedyPlus Char.isDigit fun g3 =>
            litc ')' (atEnd (buildTSN g1 g2 g3))

/-- Pattern 2: `/^(.+?)\s*\(([^)]+?)\s*Book\s*(\d+)\)$/i` — "Title (Series Book N)". -/
def seriesPat2 : List Char → Option SeriesInfo :=
  lazyPlus isDot fun g1 =>
    greedyStar isJsSpace <| litc '(' <|
      lazyPlus (· != ')') fun g2 =>
        greedyStar isJsSpace <| litCI "book".toList <|
          greedyStar isJsSpace <|
            greedyPlus Char.isDigit fun g3 =>
              litc ')' (atEnd (buildTSN g1 g2 g3))

/-- Pattern 3: `/^([^:]+?)\s*#(\d+):\s*(.+)$/` — "Series #N: Title". -/
def seriesPat3 : List Char → Option SeriesInfo :=
  lazyPlus (· != ':') fun g1 =>
    greedyStar isJsSpace <| litc '#' <|
      greedyPlus Char.isDigit fun g2 =>
        litc ':' <| greedyStar isJsSpace <|
          greedyPlus isDot fun g3 => atEnd (buildSNT g1 g2 g3)

/-- Pattern 4: `/^([^:]+?)\s*Book\s*(\d+):\s*(.+)$/i` — "Series Book N: Title". -/
def seriesPat4 : List Char → Option SeriesInfo :=
  lazyPlus (· != ':') fun g1 =>
    greedyStar isJsSpace <| litCI "book".toList <|
      greedyStar isJsSpace <|
        greedyPlus Char.isDigit fun g2 =>
          litc ':' <| greedyStar isJsSpace <|
            greedyPlus isDot fun g3 => atEnd (buildSNT g1 g2 g3)

/-- Pattern 5: `/^(.+?):\s*([^:]+?)\s*#(\d+)$/` — "Title: Series #N". -/
def seriesPat5 : List Char → Option SeriesInfo :=
  lazyPlus isDot fun g1 =>
    litc ':' <| greedyStar isJsSpace <|
      lazyPlus (· != ':') fun g2 =>
        greedyStar isJsSpace <| litc '#' <|
          greedyPlus Char.isDigit fun g3 => atEnd (buildTSN g1 g2 g3)

/-- Pattern 6: `/^(.+?)\s*-\s*([^-]+?)\s*#(\d+)$/` — "Title - Series #N". -/
def seriesPat6 : List Char → Option SeriesInfo :=
  lazyPlus isDot fun g1 =>
    greedyStar isJsSpace <| litc '-' <| greedyStar isJsSpace <|
      lazyPlus (· != '-') fun g2 =>
        greedyStar isJsSpace <| litc '#' <|
          greedyPlus Char.isDigit fun g3 => atEnd (buildTSN g1 g2 g3)

/-- The ordered pattern list of `extractSeriesInfo`. -/
def seriesPatList : List (List Char → Option SeriesInfo) :=
  [seriesPat1, seriesPat2, seriesPat3, seriesPat4, seriesPat5, seriesPat6]

/-- `googleBooksAPI.extractSeriesInfo`: try the patterns in order; the
first match wins; on no match return the title unchanged with no
series information. -/
def extractSeriesInfo (title : String) : SeriesInfo :=
  (seriesPatList.findSome? (fun m => m title.toList)).getD { cleanTitle := title }

/-! ## Record schemas (src/types/book.ts) -/

/-- `ReadingStatus = 'currently-reading' | 'read'`. -/
inductive ReadingStatus where
  | currentlyReading
  | read
deriving Repr, DecidableEq

/-- `OwnershipType = 'physical' | 'digital'`. -/
inductive OwnershipType where
  | physical
  | digital
deriving Repr, DecidableEq

/-- The `Book` record.  Dates are millisecond timestamps.  The
store-assigned document id is kept as a field (`doc.id`). -/
structure Book where
  id : String
  title : String
  author : String
  isbn : Option String := none
  coverUrl : Option String := none
  pages : Option Nat := none
  genre : Option String := none
  status : ReadingStatus
  ownershipType : OwnershipType := .physical
  dateAdded : Nat := 0
  dateStarted : Option Nat := none
  dateFinished : Option Nat := none
  rating : Option Nat := none
  currentPage : Option Nat := none
  userId : Option String := none
  series : Option String := none
  seriesNumber : Option Nat := none
deriving Repr, DecidableEq

/-- The `WishListBook` record. -/
structure WishListBook where
  id : String
  title : String
  author : String
  isbn : Option String := none
  coverUrl : Option String := none
  pages : Option Nat := none
  genre : Option String := none
  publisher : Option String := none
  publishedYear : Option String := none
  description : Option String := none
  dateAdded : Nat := 0
  userId : Option String := none
deriving Repr, DecidableEq

/-- `Partial<Book>`: every field optionally present.  `undefined`
fields are `none`.  The code never places `id` in an update, so the
(unused) optional `id` of `Partial<Book>` is omitted. -/
structure BookUpdate where
  title : Option String := none
  author : Option String := none
  isbn : Option String := none
  coverUrl : Option String := none
  pages : Option Nat := none
  genre : Option String := none
  status : Option ReadingStatus := none
  ownershipType : Option OwnershipType := none
  dateAdded : Option Nat := none
  dateStarted : Option Nat := none
  dateFinished : Option Nat := none
  rating : Option Nat := none
  currentPage : Option Nat := none
  userId : Option String := none
  series : Option String := none
  seriesNumber : Option Nat := none
deriving Repr, DecidableEq

/-- Merge of a partial update into a stored record, as performed by
`updateBook` (only defined fields are written; `undefined` fields are
skipped, never cleared) and equally by the local spread
`{ ...book, ...updates }`. -/
def applyUpdates (b : Book) (u : BookUpdate) : Book :=
  { id := b.id
    title := u.title.getD b.title
    author := u.author.getD b.author
    isbn := u.isbn.or b.isbn
    coverUrl := u.coverUrl.or b.coverUrl
    pages := u.pages.or b.pages
    genre := u.genre.or b.genre
    status := u.status.getD b.status
    ownershipType := u.ownershipType.getD b.ownershipType
    dateAdded := u.dateAdded.getD b.dateAdded
    dateStarted := u.dateStarted.or b.dateStarted
    dateFinished := u.dateFinished.or b.dateFinished
    rating := u.rating.or b.rating
    currentPage := u.currentPage.or b.currentPage
    userId := u.userId.or b.userId
    series := u.series.or b.series
    seriesNumber := u.seriesNumber.or b.seriesNumber }

/-! ## Remote store adapter (src/utils/firestoreStorage.ts)

The per-user `books` collection is modelled as a `List Book` (the
document id is the `id` field).  The authentication provider is the
`auth : Option String` parameter (`auth.currentUser?.uid`); remote
round-trip outcomes are explicit parameters. -/

/-- Errors a storage operation can raise. -/
inductive RemoteErr where
  | notAuthenticated
  | network
deriving Repr, DecidableEq

/-- Body of `getBooks` before the surrounding `try/catch`:
`getCurrentUserId()` throws `notAuthenticated` when no user is signed
in; then the remote read either fails or yields the user's books
(already ordered by `dateAdded` descending by the query). -/
def getBooksAttempt (auth : Option String)
    (fetchBooks : String → Except RemoteErr (List Book)) :
    Except RemoteErr (List Book) :=
  match auth with
  | none => .error .notAuthenticated
  | some uid => fetchBooks uid

/-- `firestoreStorage.getBooks`: the whole body is wrapped in
`try { ... } catch (error) { console.error(...); return []; }`, so
every error — including the not-authenticated throw — is caught and
the empty list is returned. -/
def getBooks (auth : Option String)
    (fetchBooks : String → Except RemoteErr (List Book)) :
    Except RemoteErr (List Book) :=
  match getBooksAttempt auth fetchBooks with
  | .ok bs => .ok bs
  | .error _ => .ok []

/-- `firestoreStorage.updateBook`.  `remoteOk` is the outcome of the
remote round-trips of this call (`false` makes them throw, caught by
the `catch` which returns `null`).  Firestore's `updateDoc` throws on
a nonexistent document, so a not-found id changes nothing and yields
`null`; otherwise only the defined fields of `updates` are merged into
the stored record, and the record is re-read via a query filtered by
the current user's id. -/
def updateBook (store : List Book) (auth : Option String) (remoteOk : Bool)
    (id : String) (updates : BookUpdate) : List Book × Option Book :=
  match auth with
  | none => (store, none)
  | some uid =>
    if !remoteOk then (store, none)
    else if store.all (fun b => b.id != id) then (store, none)
    else
      let store' := store.map (fun b => if b.id = id then applyUpdates b updates else b)
      let fetched := (store'.filter (fun b => b.userId == some uid)).find? (fun b => b.id == id)
      (store', fetched)

/-- `firestoreStorage.deleteBook`: `deleteDoc` succeeds (without
error) even when no document with that id exists; any remote failure
is caught and `false` returned. -/
def deleteBook (store : List Book) (remoteOk : Bool) (id : String) :
    List Book × Bool :=
  if remoteOk then (store.filter (fun b => b.id != id), true) else (store, false)

/-- `firestoreStorage.deleteWishListBook`: same structure as
`deleteBook`, on the wishlist collection. -/
def deleteWishListBook (store : List WishListBook) (remoteOk : Bool) (id : String) :
    List WishListBook × Bool :=
  if remoteOk then (store.filter (fun w => w.id != id), true) else (store, false)

/-- `firestoreStorage.moveWishListBookToCollection`: read the current
user's wishlist, find the source record (throwing — caught below — if
absent), build a `Book` from it (wishlist-only fields dropped,
ownership defaulting to `physical`, `dateStarted`/`dateFinished`
derived from the target status), add it to the books collection, then
delete the wishlist source.  `addOk` is the outcome of the `addBook`
remote call; on any throw the `catch` returns `null`.  Returns the new
(books, wishlist) state and the created book (or `null`). -/
def moveWishListBookToCollection (books : List Book) (wishlist : List WishListBook)
    (auth : Option String) (addOk : Bool) (newId : String) (now : Nat)
    (id : String) (status : ReadingStatus) :
    (List Book × List WishListBook) × Option Book :=
  let fetched : List WishListBook :=
    match auth with
    | none => []
    | some uid => wishlist.filter (fun w => w.userId == some uid)
  match fetched.find? (fun w => w.id == id) with
  | none => ((books, wishlist), none)
  | some w =>
    if !addOk then ((books, wishlist), none)
    else
      let newBook : Book :=
        { id := newId
          title := w.title
          author := w.author
          isbn := w.isbn
          coverUrl := w.coverUrl
          pages := w.pages
          genre := w.genre
          status := status
          ownershipType := .physical
          dateAdded := now
          dateStarted := if status = .currentlyReading then some now else none
          dateFinished := if status = .read then some now else none
          userId := auth }
      ((books ++ [newBook], wishlist.filter (fun w' => w'.id != id)), some newBook)

/-- Pure core of `firestoreStorage.getReadingStats`, applied to the
fetched book and wishlist collections (the source awaits `getBooks`
and `getWishListBooks` and then computes these counts). -/
structure ReadingStats where
  total : Nat
  read : Nat
  currentlyReading : Nat
  wishList : Nat
deriving Repr, DecidableEq

/-- `getReadingStats` count derivation. -/
def getReadingStats (books : List Book) (wishListBooks : List WishListBook) :
    ReadingStats :=
  { total := books.length
    read := (books.filter (fun b => b.status == ReadingStatus.read)).length
    currentlyReading := (books.filter (fun b => b.status == ReadingStatus.currentlyReading)).length
    wishList := wishListBooks.length }

/-! ## View derivation (src/app/page.tsx, src/app/book/[id]/page.tsx) -/

/-- Result of `getStats` on the home page. -/
structure HomeStats where
  reading : Nat
  completed : Nat
  totalPages : Nat
  wishList : Nat
deriving Repr, DecidableEq

/-- `getStats` from `src/app/page.tsx`: counts over the in-memory
book list; `totalPages` sums `book.pages || 0` over the books with
status `read` only. -/
def getStats (books : List Book) (wishListBooks : List WishListBook) : HomeStats :=
  { reading := (books.filter (fun b => b.status == ReadingStatus.currentlyReading)).length
    completed := (books.filter (fun b => b.status == ReadingStatus.read)).length
    totalPages := (books.filter (fun b => b.status == ReadingStatus.read)).foldl
      (fun sum b => sum + b.pages.getD 0) 0
    wishList := wishListBooks.length }

/-- `readingProgress` from the book detail page:
`book.pages && book.currentPage ? Math.min((currentPage / pages) * 100, 100) : 0`
(JS truthiness: a missing or zero value short-circuits to 0). -/
def readingProgress (b : Book) : ℚ :=
  if jsTruthyNat b.pages && jsTruthyNat b.currentPage then
    min (((b.currentPage.getD 0 : ℚ) / (b.pages.getD 0 : ℚ)) * 100) 100
  else 0

/-- `handleStatusChange` from the book detail page: the partial update
it sends to `updateBook` (and spreads into local state).  `now` is
`new Date()`.  A `Date` object is always truthy, so `!book.dateStarted`
is exactly "dateStarted absent". -/
def handleStatusChange (book : Book) (now : Nat) (newStatus : ReadingStatus) :
    BookUpdate :=
  let u : BookUpdate := { status := some newStatus }
  if newStatus = .currentlyReading ∧ book.dateStarted = none then
    { u with dateStarted := some now }
  else if newStatus = .read then
    let u' := if book.dateStarted = none then { u with dateStarted := some now } else u
    { u' with dateFinished := some now }
  else u

/-! ## Metadata search client (src/utils/googleBooks.ts) -/

/-- An entry of `volumeInfo.industryIdentifiers`. -/
structure IndustryId where
  type : String
  identifier : String
deriving Repr, DecidableEq

/-- `volumeInfo` of a Google Books item (the fields the client reads). -/
structure VolumeInfo where
  title : String := ""
  authors : Option (List String) := none
  publishedDate : Option String := none
  description : Option String := none
  industryIds : Option (List IndustryId) := none
  pageCount : Option Nat := none
  categories : Option (List String) := none
  thumbnail : Option String := none
  smallThumbnail : Option String := none
  averageRating : Option ℚ := none
  publisher : Option String := none
deriving Repr, DecidableEq

/-- A Google Books volume. -/
structure GoogleBookItem where
  id : String
  volumeInfo : VolumeInfo
deriving Repr, DecidableEq

/-- A normalized search result (`BookSearchResult`). -/
structure BookSearchResult where
  id : String
  title : String
  author : String
  publishedYear : Option String := none
  description : Option String := none
  isbn : Option String := none
  pages : Option Nat := none
  genre : Option String := none
  coverUrl : Option String := none
  thumbnail : Option String := none
  publisher : Option String := none
  rating : Option ℚ := none
deriving Repr, DecidableEq

/-- The per-item normalization done by `searchBooks`.  `getYear`
stands for the JS `new Date(s).getFullYear().toString()` library
call.  ISBN-13 is preferred over ISBN-10 (`isbn13 || isbn10`), the
authors are joined with `', '` falling back to `'Unknown Author'` when
the join is empty or the list absent, and cover URLs are rewritten
from `http:` to `https:`. -/
def convertItem (getYear : String → String) (item : GoogleBookItem) :
    BookSearchResult :=
  let v := item.volumeInfo
  let isbn13 := ((v.industryIds.getD []).find? (fun i => i.type == "ISBN_13")).map
    (fun i => i.identifier)
  let isbn10 := ((v.industryIds.getD []).find? (fun i => i.type == "ISBN_10")).map
    (fun i => i.identifier)
  { id := item.id
    title := if v.title = "" then "Unknown Title" else v.title
    author :=
      match v.authors with
      | none => "Unknown Author"
      | some l =>
        let j := String.intercalate ", " l
        if j = "" then "Unknown Author" else j
    publishedYear :=
      match v.publishedDate with
      | none => none
      | some s => if s = "" then none else some (getYear s)
    description := v.description
    isbn := jsOrStr isbn13 isbn10
    pages := v.pageCount
    genre := v.categories.map (String.intercalate ", ")
    coverUrl := jsOrStr (v.thumbnail.map replaceHttp) (v.smallThumbnail.map replaceHttp)
    thumbnail := v.smallThumbnail.map replaceHttp
    publisher := v.publisher
    rating := v.averageRating }

/-- Outcome of the HTTP `fetch` of the volumes endpoint. -/
inductive FetchOutcome where
  | fail
  | resp (status : Nat) (items : Option (List GoogleBookItem))
deriving Repr, DecidableEq

/-- `googleBooksAPI.searchBooks`: an empty (or whitespace-only) query
returns `[]` before any network call; a failed fetch, a non-2xx status
(`!response.ok` throws, caught below) or an absent `items` field all
degrade to `[]`.  The second component counts the network calls made.
The fetch oracle receives the trimmed query (URL encoding abstracted)
and `maxResults`. -/
def searchBooks (getYear : String → String)
    (fetch : String → Nat → FetchOutcome)
    (query : String) (maxResults : Nat) :
    List BookSearchResult × Nat :=
  if jsTrimS query = "" then ([], 0)
  else
    match fetch (jsTrimS query) maxResults with
    | .fail => ([], 1)
    | .resp status items =>
      if status < 200 || 300 ≤ status then ([], 1)
      else
        match items with
        | none => ([], 1)
        | some its => (its.map (convertItem getYear), 1)

/-- The `SeriesBook` record (derived, not persisted). -/
structure SeriesBook where
  id : String
  title : String
  author : String
  coverUrl : Option String := none
  publishedYear : Option String := none
  description : Option String := none
  seriesNumber : Option Nat := none
  inLibrary : Bool := false
deriving Repr, DecidableEq

/-- Code-point lexicographic three-way string comparison, modelling
`String.prototype.localeCompare` (negative / zero / positive). -/
def strCmp : List Char → List Char → Int
  | [], [] => 0
  | [], _ :: _ => -1
  | _ :: _, [] => 1
  | a :: as, b :: bs =>
    if a.toNat < b.toNat then -1
    else if b.toNat < a.toNat then 1
    else strCmp as bs

/-- The sort comparator of `searchSeriesBooks`.  Note the JS
truthiness tests: a series number of `0` takes the "no number"
branches. -/
def seriesCompare (a b : SeriesBook) : Int :=
  if jsTruthyNat a.seriesNumber && jsTruthyNat b.seriesNumber then
    (a.seriesNumber.getD 0 : Int) - (b.seriesNumber.getD 0 : Int)
  else if jsTruthyNat a.seriesNumber && !jsTruthyNat b.seriesNumber then -1
  else if !jsTruthyNat a.seriesNumber && jsTruthyNat b.seriesNumber then 1
  else strCmp a.title.toList b.title.toList

/-- The comparator as a Boolean order ("sorts not after"). -/
def seriesLe (a b : SeriesBook) : Bool :=
  seriesCompare a b ≤ 0

/-- Stable insertion into a sorted list: the inserted element goes
before the first element it sorts no later than (so an element keeps
its position relative to ties that follow it in the original list). -/
def insertSorted {α : Type} (le : α → α → Bool) (x : α) : List α → List α
  | [] => [x]
  | y :: ys => if le x y then x :: y :: ys else y :: insertSorted le x ys

/-- Stable insertion sort. -/
def stableSort {α : Type} (le : α → α → Bool) : List α → List α
  | [] => []
  | x :: xs => insertSorted le x (stableSort le xs)

/-- `Array.prototype.sort` with `seriesCompare`: the JS sort is
stable, and since the comparator is a consistent total preorder its
result is exactly the stable sort by `seriesLe`. -/
def sortSeries (l : List SeriesBook) : List SeriesBook :=
  stableSort seriesLe l

/-- Per-result `SeriesBook` construction used in both branches of
`searchSeriesBooks` (`inLibrary` starts out `false`). -/
def toSeriesBook (b : BookSearchResult) : SeriesBook :=
  { id := b.id
    title := b.title
    author := b.author
    coverUrl := b.coverUrl
    publishedYear := b.publishedYear
    description := b.description
    seriesNumber := (extractSeriesInfo b.title).seriesNumber
    inLibrary := false }

/-- The relatedness filter of the author-only fallback branch of
`searchSeriesBooks`: same-series substring check when both titles
carry a (truthy) series, otherwise overlap of significant title words
(length > 3, mutual-substring comparison, at least one in common). -/
def relatedTitle (title bookTitle : String) : Bool :=
  let bi := extractSeriesInfo bookTitle
  let ci := extractSeriesInfo title
  if jsTruthyStr bi.series && jsTruthyStr ci.series then
    containsStr (bi.series.getD "").toLower (ci.series.getD "").toLower ||
    containsStr (ci.series.getD "").toLower (bi.series.getD "").toLower
  else
    let currentWords := ((ci.cleanTitle.toLower).splitOn " ").filter
      (fun w => 3 < w.length)
    let bookWords := ((bi.cleanTitle.toLower).splitOn " ").filter
      (fun w => 3 < w.length)
    let commonWords := currentWords.filter (fun w =>
      bookWords.any (fun bw => containsStr bw w || containsStr w bw))
    1 ≤ commonWords.length

/-- `googleBooksAPI.searchSeriesBooks`: if the source title carries a
(truthy) series name, query `inauthor:"author" "series"` and map the
results; otherwise query by author only and keep the related titles.
Either branch sorts with `seriesCompare`. -/
def searchSeriesBooks (getYear : String → String)
    (fetch : String → Nat → FetchOutcome)
    (author title : String) (maxResults : Nat) : List SeriesBook :=
  let info := extractSeriesInfo title
  if jsTruthyStr info.series then
    let seriesQuery :=
      "inauthor:\"" ++ author ++ "\" \"" ++ info.series.getD "" ++ "\""
    let books := (searchBooks getYear fetch seriesQuery maxResults).1
    sortSeries (books.map toSeriesBook)
  else
    let authorQuery := "inauthor:\"" ++ author ++ "\""
    let books := (searchBooks getYear fetch authorQuery maxResults).1
    let related := books.filter (fun b => relatedTitle title b.title)
    sortSeries (related.map toSeriesBook)

/-! ## Derived notions used by the statements -/

/-- The book-detail state after a status change: the partial update
produced by `handleStatusChange` merged into the record (this is what
both `updateBook` and the local `{ ...book, ...updates }` spread
compute). -/
def afterStatusChange (book : Book) (now : Nat) (newStatus : ReadingStatus) : Book :=
  applyUpdates book (handleStatusChange book now newStatus)

/-- The empty partial update `{}`. -/
def emptyUpdate : BookUpdate := {}

/-- The ordering the spec claims for `searchSeriesBooks` results:
entries with a known (present) series number first, ascending, then
entries without a number, with title ties among the unnumbered. -/
def claimOrdered (a b : SeriesBook) : Prop :=
  (a.seriesNumber.isSome → b.seriesNumber.isSome →
    a.seriesNumber.getD 0 ≤ b.seriesNumber.getD 0) ∧
  (b.seriesNumber.isSome → a.seriesNumber.isSome) ∧
  (a.seriesNumber = none → b.seriesNumber = none →
    strCmp a.title.toList b.title.toList ≤ 0)

/-- The ordering the comparator actually establishes: entries whose
series number is truthy (present and nonzero) first, ascending; all
others (absent or zero) last, ordered by title. -/
def actualOrdered (a b : SeriesBook) : Prop :=
  (jsTruthyNat b.seriesNumber = true → jsTruthyNat a.seriesNumber = true) ∧
  (jsTruthyNat a.seriesNumber = true → jsTruthyNat b.seriesNumber = true →
    a.seriesNumber.getD 0 ≤ b.seriesNumber.getD 0) ∧
  (jsTruthyNat a.seriesNumber = false → jsTruthyNat b.seriesNumber = false →
    strCmp a.title.toList b.title.toList ≤ 0)

/-! ## Concrete fixtures for witnesses and counterexamples -/

/-- A remote read that succeeds with no documents. -/
def okFetchBooks : String → Except RemoteErr (List Book) := fun _ => .ok []

/-- A remote read that fails with a network error. -/
def failFetchBooks : String → Except RemoteErr (List Book) := fun _ => .error .network

/-- A sample book (currently reading, no dates recorded). -/
def exBook : Book :=
  { id := "b1", title := "Alpha", author := "A. Author",
    status := .currentlyReading, userId := some "u1" }

/-- A sample finished book with 300 pages. -/
def exRead : Book :=
  { id := "b2", title := "Beta", author := "A. Author",
    status := .read, pages := some 300, userId := some "u1" }

/-- A sample in-progress book with 200 pages, at page 150. -/
def exCur : Book :=
  { id := "b3", title := "Gamma", author := "A. Author",
    status := .currentlyReading, pages := some 200, currentPage := some 150,
    userId := some "u1" }

/-- A sample book whose recorded page exceeds its page count. -/
def exOver : Book :=
  { id := "b4", title := "Delta", author := "A. Author",
    status := .currentlyReading, pages := some 100, currentPage := some 150,
    userId := some "u1" }

/-- A sample wishlist record. -/
def exWish : WishListBook :=
  { id := "w1", title := "Epsilon", author := "A. Author", userId := some "u1" }

/-- A sample partial update touching only the rating. -/
def exRatingUpdate : BookUpdate := { rating := some 5 }

/-- Year oracle used in the concrete search scenarios. -/
def cexYear : String → String := fun _ => "2000"

/-- A fetch oracle returning two items of the "Saga" series, one of
them numbered `#0`. -/
def cexFetch : String → Nat → FetchOutcome := fun _ _ =>
  .resp 200 (some
    [ { id := "g0", volumeInfo := { title := "Beta (Saga #0)" } },
      { id := "g2", volumeInfo := { title := "Gamma (Saga #2)" } } ])

/-- A fetch oracle that always yields a 404 response. -/
def cexFetch404 : String → Nat → FetchOutcome := fun _ _ => .resp 404 none

/-! ## Theorems -/

/-- C1 (counterexample): `getBooks` invoked with no authenticated
user does not raise the not-authenticated error — the surrounding
`catch` swallows it and the call resolves with the empty list. -/
theorem c1_unauthenticated_counterexample :
    getBooks none okFetchBooks = Except.ok ([] : List Book) ∧
    getBooks none okFetchBooks ≠ Except.error RemoteErr.notAuthenticated := by
  refine ⟨rfl, ?_⟩
  intro h
  simp [getBooks, getBooksAttempt, okFetchBooks] at h

/-- C1 (amended): the body of `getBooks` does raise the
not-authenticated error, but the surrounding catch converts every
failure — missing authentication as well as a failing remote read —
into a successful empty list; no error reaches the caller. -/
theorem c1_getBooks_degrades_to_empty
    (fetch : String → Except RemoteErr (List Book)) :
    getBooksAttempt none fetch = Except.error RemoteErr.notAuthenticated ∧
    getBooks none fetch = Except.ok [] ∧
    (∀ uid e, fetch uid = Except.error e → getBooks (some uid) fetch = Except.ok []) := by
  refine ⟨rfl, rfl, fun uid e he => ?_⟩
  simp [getBooks, getBooksAttempt, he]

/-- C1 (witness): the amended statement at a concrete failing fetch. -/
theorem c1_getBooks_degrades_witness :
    getBooks (some "u1") failFetchBooks = Except.ok [] :=
  (c1_getBooks_degrades_to_empty failFetchBooks).2.2 "u1" RemoteErr.network rfl

/-- C10: `deleteBook` and `deleteWishListBook` return `true` whenever
the remote delete call does not fail, even when no record with the
given id exists (in which case the store is returned unchanged
together with `true`). -/
theorem c10_delete_true_without_removal
    (storeB : List Book) (storeW : List WishListBook) (id : String) :
    (deleteBook storeB true id).2 = true ∧
    (deleteWishListBook storeW true id).2 = true ∧
    ((∀ b ∈ storeB, b.id ≠ id) → deleteBook storeB true id = (storeB, true)) ∧
    ((∀ w ∈ storeW, w.id ≠ id) → deleteWishListBook storeW true id = (storeW, true)) := by
  refine ⟨rfl, rfl, fun h => ?_, fun h => ?_⟩
  · have hf : storeB.filter (fun b => b.id != id) = storeB :=
      List.filter_eq_self.mpr fun b hb => by simpa using h b hb
    simp [deleteBook, hf]
  · have hf : storeW.filter (fun w => w.id != id) = storeW :=
      List.filter_eq_self.mpr fun w hw => by simpa using h w hw
    simp [deleteWishListBook, hf]

/-- C10 (witness): deleting an id absent from a singleton store still
reports success and removes nothing. -/
theorem c10_delete_true_witness :
    deleteBook [exBook] true "no-such-id" = ([exBook], true) ∧
    deleteWishListBook [exWish] true "no-such-id" = ([exWish], true) := by
  have h := c10_delete_true_without_removal [exBook] [exWish] "no-such-id"
  exact ⟨h.2.2.1 (by decide), h.2.2.2 (by decide)⟩

/-- C7: moving a wishlist id that matches no wishlist record of the
current user returns `null` and leaves both collections unchanged —
in particular no `Book` record is created. -/
theorem c7_move_nonexistent_no_side_effect
    (books : List Book) (wishlist : List WishListBook) (auth : Option String)
    (addOk : Bool) (newId : String) (now : Nat) (id : String)
    (status : ReadingStatus) (h : ∀ w ∈ wishlist, w.id ≠ id) :
    moveWishListBookToCollection books wishlist auth addOk newId now id status =
      ((books, wishlist), none) := by
  unfold moveWishListBookToCollection
  have hfind : ∀ uid : String,
      (wishlist.filter (fun w => w.userId == some uid)).find? (fun w => w.id == id) = none := by
    intro uid
    rw [List.find?_eq_none]
    intro w hw
    simp only [List.mem_filter] at hw
    simpa using h w hw.1
  cases auth with
  | none => simp
  | some uid => simp [hfind uid]

/-- C7 (witness): the theorem at a concrete wishlist not containing
the requested id. -/
theorem c7_move_nonexistent_witness :
    moveWishListBookToCollection [exBook] [exWish] (some "u1") true "n1" 9 "w2"
        ReadingStatus.read = (([exBook], [exWish]), none) :=
  c7_move_nonexistent_no_side_effect [exBook] [exWish] (some "u1") true "n1" 9 "w2"
    ReadingStatus.read (by decide)

/-- Summing a payload over the filtered elements equals summing the
guarded payload over all elements. -/
theorem foldl_filter_sum (p : Book → Bool) (f : Book → Nat) (l : List Book) (n : Nat) :
    (l.filter p).foldl (fun sum b => sum + f b) n =
      n + (l.map (fun b => if p b then f b else 0)).sum := by
  induction l generalizing n with
  | nil => simp
  | cons b l ih =>
    by_cases hb : p b = true
    · simp [List.filter_cons, hb, ih, Nat.add_assoc]
    · simp [List.filter_cons, hb, ih]

/-- C2: `updateBook` applies exactly the defined fields of a partial
update: every absent (`none`) field keeps its stored value, every
defined field is written; the empty partial changes nothing; and the
operation returns `null`, without touching the store, on a nonexistent
id and on a remote failure. -/
theorem c2_updateBook_partial_semantics (b : Book) (u : BookUpdate) :
    ((u.title = none → (applyUpdates b u).title = b.title) ∧
     (u.author = none → (applyUpdates b u).author = b.author) ∧
     (u.isbn = none → (applyUpdates b u).isbn = b.isbn) ∧
     (u.coverUrl = none → (applyUpdates b u).coverUrl = b.coverUrl) ∧
     (u.pages = none → (applyUpdates b u).pages = b.pages) ∧
     (u.genre = none → (applyUpdates b u).genre = b.genre) ∧
     (u.status = none → (applyUpdates b u).status = b.status) ∧
     (u.ownershipType = none → (applyUpdates b u).ownershipType = b.ownershipType) ∧
     (u.dateAdded = none → (applyUpdates b u).dateAdded = b.dateAdded) ∧
     (u.dateStarted = none → (applyUpdates b u).dateStarted = b.dateStarted) ∧
     (u.dateFinished = none → (applyUpdates b u).dateFinished = b.dateFinished) ∧
     (u.rating = none → (applyUpdates b u).rating = b.rating) ∧
     (u.currentPage = none → (applyUpdates b u).currentPage = b.currentPage) ∧
     (u.userId = none → (applyUpdates b u).userId = b.userId) ∧
     (u.series = none → (applyUpdates b u).series = b.series) ∧
     (u.seriesNumber = none → (applyUpdates b u).seriesNumber = b.seriesNumber)) ∧
    ((∀ v, u.title = some v → (applyUpdates b u).title = v) ∧
     (∀ v, u.author = some v → (applyUpdates b u).author = v) ∧
     (∀ v, u.isbn = some v → (applyUpdates b u).isbn = some v) ∧
     (∀ v, u.coverUrl = some v → (applyUpdates b u).coverUrl = some v) ∧
     (∀ v, u.pages = some v → (applyUpdates b u).pages = some v) ∧
     (∀ v, u.genre = some v → (applyUpdates b u).genre = some v) ∧
     (∀ v, u.status = some v → (applyUpdates b u).status = v) ∧
     (∀ v, u.ownershipType = some v → (applyUpdates b u).ownershipType = v) ∧
     (∀ v, u.dateAdded = some v → (applyUpdates b u).dateAdded = v) ∧
     (∀ v, u.dateStarted = some v → (applyUpdates b u).dateStarted = some v) ∧
     (∀ v, u.dateFinished = some v → (applyUpdates b u).dateFinished = some v) ∧
     (∀ v, u.rating = some v → (applyUpdates b u).rating = some v) ∧
     (∀ v, u.currentPage = some v → (applyUpdates b u).currentPage = some v) ∧
     (∀ v, u.userId = some v → (applyUpdates b u).userId = some v) ∧
     (∀ v, u.series = some v → (applyUpdates b u).series = some v) ∧
     (∀ v, u.seriesNumber = some v → (applyUpdates b u).seriesNumber = some v)) ∧
    applyUpdates b emptyUpdate = b ∧
    (∀ store auth id, updateBook store auth false id u = (store, none)) ∧
    (∀ store uid id, (∀ bk ∈ store, bk.id ≠ id) →
      updateBook store (some uid) true id u = (store, none)) ∧
    (∀ store uid id, (updateBook store (some uid) true id emptyUpdate).1 = store) := by
  refine ⟨?_, ?_, rfl, ?_, ?_, ?_⟩
  · exact ⟨fun h => by simp [applyUpdates, h], fun h => by simp [applyUpdates, h],
      fun h => by simp [applyUpdates, h], fun h => by simp [applyUpdates, h],
      fun h => by simp [applyUpdates, h], fun h => by simp [applyUpdates, h],
      fun h => by simp [applyUpdates, h], fun h => by simp [applyUpdates, h],
      fun h => by simp [applyUpdates, h], fun h => by simp [applyUpdates, h],
      fun h => by simp [applyUpdates, h], fun h => by simp [applyUpdates, h],
      fun h => by simp [applyUpdates, h], fun h => by simp [applyUpdates, h],
      fun h => by simp [applyUpdates, h], fun h => by simp [applyUpdates, h]⟩
  · exact ⟨fun v h => by simp [applyUpdates, h], fun v h => by simp [applyUpdates, h],
      fun v h => by simp [applyUpdates, h], fun v h => by simp [applyUpdates, h],
      fun v h => by simp [applyUpdates, h], fun v h => by simp [applyUpdates, h],
      fun v h => by simp [applyUpdates, h], fun v h => by simp [applyUpdates, h],
      fun v h => by simp [applyUpdates, h], fun v h => by simp [applyUpdates, h],
      fun v h => by simp [applyUpdates, h], fun v h => by simp [applyUpdates, h],
      fun v h => by simp [applyUpdates, h], fun v h => by simp [applyUpdates, h],
      fun v h => by simp [applyUpdates, h], fun v h => by simp [applyUpdates, h]⟩
  · intro store auth id
    cases auth <;> simp [updateBook]
  · intro store uid id h
    have hall : store.all (fun bk => bk.id != id) = true :=
      List.all_eq_true.mpr fun bk hbk => by simpa using h bk hbk
    simp [updateBook, hall]
  · intro store uid id
    have hmap : store.map
        (fun bk => if bk.id = id then applyUpdates bk emptyUpdate else bk) = store := by
      rw [List.map_congr_left (g := fun bk => bk) fun bk _ => by
        by_cases hbk : bk.id = id
        · rw [if_pos hbk]; rfl
        · rw [if_neg hbk]]
      exact List.map_id store
    by_cases hall : store.all (fun bk => bk.id != id) = true
    · simp [updateBook, hall]
    · simp [updateBook, hall, hmap]

/-- C2 (witness): the theorem at a concrete record and a concrete
rating-only update on a store not containing the requested id. -/
theorem c2_updateBook_partial_witness :
    (applyUpdates exBook exRatingUpdate).rating = some 5 ∧
    (applyUpdates exBook exRatingUpdate).title = exBook.title ∧
    applyUpdates exBook emptyUpdate = exBook ∧
    updateBook [exBook] (some "u1") true "zz" exRatingUpdate = ([exBook], none) := by
  have h := c2_updateBook_partial_semantics exBook exRatingUpdate
  exact ⟨h.2.1.2.2.2.2.2.2.2.2.2.2.2.1 5 rfl, h.1.1 rfl, h.2.2.1,
    h.2.2.2.2.1 [exBook] "u1" "zz" (by decide)⟩

/-- C3: a status change to `read` records `dateFinished` and
backfills `dateStarted` when it was absent; a `dateStarted` already
recorded is kept verbatim by every transition, and neither date is
ever cleared (`isSome` is preserved) by any transition. -/
theorem c3_status_change_dates (book : Book) (now : Nat) (s : ReadingStatus) :
    (s = ReadingStatus.read → (afterStatusChange book now s).dateFinished = some now) ∧
    (s = ReadingStatus.read → book.dateStarted = none →
      (afterStatusChange book now s).dateStarted = some now) ∧
    (∀ d, book.dateStarted = some d → (afterStatusChange book now s).dateStarted = some d) ∧
    (book.dateStarted.isSome → (afterStatusChange book now s).dateStarted.isSome) ∧
    (book.dateFinished.isSome → (afterStatusChange book now s).dateFinished.isSome) ∧
    (afterStatusChange book now s).status = s := by
  cases s <;> cases hds : book.dateStarted <;> cases hdf : book.dateFinished <;>
    simp [afterStatusChange, handleStatusChange, applyUpdates, hds, hdf]

/-- C3 (witness): the theorem at concrete transitions — a book with
no dates moved to `read` gets both dates stamped, and a book with a
recorded start keeps it. -/
theorem c3_status_change_witness :
    (afterStatusChange exBook 7 ReadingStatus.read).dateFinished = some 7 ∧
    (afterStatusChange exBook 7 ReadingStatus.read).dateStarted = some 7 ∧
    (afterStatusChange { exBook with dateStarted := some 3 } 7
      ReadingStatus.read).dateStarted = some 3 := by
  refine ⟨(c3_status_change_dates exBook 7 ReadingStatus.read).1 rfl,
    (c3_status_change_dates exBook 7 ReadingStatus.read).2.1 rfl rfl,
    (c3_status_change_dates { exBook with dateStarted := some 3 } 7
      ReadingStatus.read).2.2.1 3 rfl⟩

/-- C5: when both a page count and a current page are recorded and
the page count is positive, the displayed progress is exactly
`min(currentPage / pages * 100, 100)` and never exceeds 100, even
when `currentPage > pages`. -/
theorem c5_reading_progress_clamped (b : Book) (p c : Nat)
    (hp : b.pages = some p) (hc : b.currentPage = some c) (hpos : 0 < p) :
    readingProgress b = min (((c : ℚ) / (p : ℚ)) * 100) 100 ∧
    readingProgress b ≤ 100 := by
  have hpt : jsTruthyNat (some p) = true := by simp [jsTruthyNat]; omega
  by_cases hc0 : c = 0
  · subst hc0
    constructor
    · simp [readingProgress, hp, hc, jsTruthyNat]
    · simp [readingProgress, hp, hc, jsTruthyNat]
  · have hct : jsTruthyNat (some c) = true := by simp [jsTruthyNat]; omega
    have hcond : readingProgress b = min (((c : ℚ) / (p : ℚ)) * 100) 100 := by
      simp [readingProgress, hp, hc, hpt, hct]
    exact ⟨hcond, hcond ▸ min_le_right _ _⟩

/-- C5 (witness): a book at page 150 of 100 pages displays exactly
the clamped value, which evaluates to 100. -/
theorem c5_reading_progress_witness :
    readingProgress exOver = min (((150 : ℚ) / (100 : ℚ)) * 100) 100 ∧
    readingProgress exOver ≤ 100 :=
  c5_reading_progress_clamped exOver 100 150 rfl rfl (by norm_num)

/-- C6: the derived statistics count exactly the books, the `read`
books, the `currently-reading` books and the wishlist entries, and
the total pages read sum ranges over `read` books only with a missing
page count contributing 0; on the spec's sample data the result is
(total 2, read 1, currentlyReading 1, wishList 0, totalPages 300). -/
theorem c6_stats_derivation (books : List Book) (wl : List WishListBook) :
    (getReadingStats books wl).total = books.length ∧
    (getReadingStats books wl).read =
      books.countP (fun b => b.status == ReadingStatus.read) ∧
    (getReadingStats books wl).currentlyReading =
      books.countP (fun b => b.status == ReadingStatus.currentlyReading) ∧
    (getReadingStats books wl).wishList = wl.length ∧
    (getStats books wl).wishList = wl.length ∧
    (getStats books wl).totalPages =
      (books.map (fun b =>
        if b.status = ReadingStatus.read then b.pages.getD 0 else 0)).sum ∧
    getReadingStats [exRead, exCur] [] =
      { total := 2, read := 1, currentlyReading := 1, wishList := 0 } ∧
    getStats [exRead, exCur] [] =
      { reading := 1, completed := 1, totalPages := 300, wishList := 0 } := by
  refine ⟨rfl, ?_, ?_, rfl, rfl, ?_, by decide, by decide⟩
  · rw [List.countP_eq_length_filter]; rfl
  · rw [List.countP_eq_length_filter]; rfl
  · show (books.filter (fun b => b.status == ReadingStatus.read)).foldl
        (fun sum b => sum + b.pages.getD 0) 0 = _
    rw [foldl_filter_sum]
    simp only [Nat.zero_add]
    rw [List.map_congr_left
      (g := fun b : Book => if b.status = ReadingStatus.read then b.pages.getD 0 else 0)
      fun b _ => by by_cases hb : b.status = ReadingStatus.read <;> simp [hb]]

/-- C4: `extractSeriesInfo` tries the series patterns in their fixed
order and the first match determines the result; with no match the
title is returned unchanged and without series data; on the spec's
examples it parses "Mistborn (Mistborn #1)" and leaves "The Hobbit"
untouched. -/
theorem c4_extract_series_first_match :
    extractSeriesInfo "Mistborn (Mistborn #1)" =
      { cleanTitle := "Mistborn", series := some "Mistborn", seriesNumber := some 1 } ∧
    extractSeriesInfo "The Hobbit" = { cleanTitle := "The Hobbit" } ∧
    (∀ t : String, (∀ m ∈ seriesPatList, m t.toList = none) →
      extractSeriesInfo t = { cleanTitle := t }) ∧
    (∀ (t : String) (earlier later : List (List Char → Option SeriesInfo))
       (m : List Char → Option SeriesInfo) (r : SeriesInfo),
      seriesPatList = earlier ++ m :: later →
      (∀ m' ∈ earlier, m' t.toList = none) →
      m t.toList = some r → extractSeriesInfo t = r) := by
  refine ⟨by decide, by decide, fun t h => ?_, fun t earlier later m r hlist hnone hm => ?_⟩
  · unfold extractSeriesInfo
    rw [List.findSome?_eq_none_iff.mpr h]
    rfl
  · unfold extractSeriesInfo
    rw [hlist, List.findSome?_append,
      List.findSome?_eq_none_iff.mpr hnone, List.findSome?_cons, hm]
    rfl

/-- C4 (witness): the no-match and first-match parts at the two
concrete titles of the spec. -/
theorem c4_extract_series_witness :
    extractSeriesInfo "The Hobbit" = { cleanTitle := "The Hobbit" } ∧
    extractSeriesInfo "Mistborn (Mistborn #1)" =
      { cleanTitle := "Mistborn", series := some "Mistborn", seriesNumber := some 1 } := by
  refine ⟨c4_extract_series_first_match.2.2.1 "The Hobbit" (by decide), ?_⟩
  exact c4_extract_series_first_match.2.2.2 "Mistborn (Mistborn #1)" []
    [seriesPat2, seriesPat3, seriesPat4, seriesPat5, seriesPat6] seriesPat1
    { cleanTitle := "Mistborn", series := some "Mistborn", seriesNumber := some 1 }
    rfl (by simp) (by decide)

/-- C9: `searchBooks` returns the empty list with zero network calls
on an empty or whitespace-only query, and degrades to the empty list
(rather than raising) on a non-2xx response or a failed fetch. -/
theorem c9_searchBooks_degrades (getYear : String → String)
    (fetch : String → Nat → FetchOutcome) (q : String) (maxResults : Nat) :
    ((∀ ch ∈ q.toList, isJsSpace ch = true) →
      searchBooks getYear fetch q maxResults = ([], 0)) ∧
    (jsTrimS q = "" → searchBooks getYear fetch q maxResults = ([], 0)) ∧
    (∀ status items, fetch (jsTrimS q) maxResults = FetchOutcome.resp status items →
      status < 200 ∨ 300 ≤ status →
      (searchBooks getYear fetch q maxResults).1 = []) ∧
    (fetch (jsTrimS q) maxResults = FetchOutcome.fail →
      (searchBooks getYear fetch q maxResults).1 = []) := by
  have hempty : ∀ h0 : jsTrimS q = "", searchBooks getYear fetch q maxResults = ([], 0) :=
    fun h0 => by simp [searchBooks, h0]
  refine ⟨fun h => ?_, hempty, fun status items hf hbad => ?_, fun hf => ?_⟩
  · apply hempty
    unfold jsTrimS jsTrim
    rw [List.dropWhile_eq_nil_iff.mpr h]
    rfl
  · by_cases h0 : jsTrimS q = ""
    · rw [hempty h0]
    · have hb : (decide (status < 200) || decide (300 ≤ status)) = true := by
        rcases hbad with h | h <;> simp [h]
      simp [searchBooks, h0, hf, hb]
  · by_cases h0 : jsTrimS q = ""
    · rw [hempty h0]
    · simp [searchBooks, h0, hf]

/-- C9 (witness): a whitespace-only query yields `([], 0)` — no
network call — and a 404 response yields `[]`. -/
theorem c9_searchBooks_witness :
    searchBooks cexYear cexFetch "   " 5 = ([], 0) ∧
    (searchBooks cexYear cexFetch404 "q" 5).1 = [] := by
  refine ⟨(c9_searchBooks_degrades cexYear cexFetch "   " 5).1 (by decide), ?_⟩
  exact (c9_searchBooks_degrades cexYear cexFetch404 "q" 5).2.2.1 404 none rfl
    (Or.inr (by norm_num))

/-- Swapping the arguments of `strCmp` negates the result. -/
theorem strCmp_swap (a : List Char) : ∀ b, strCmp b a = -strCmp a b := by
  induction a with
  | nil => intro b; cases b <;> simp [strCmp]
  | cons x as ih =>
    intro b
    cases b with
    | nil => simp [strCmp]
    | cons y bs =>
      simp only [strCmp]
      split_ifs <;> first
        | omega
        | exact ih bs

/-- `strCmp _ _ ≤ 0` is transitive. -/
theorem strCmp_le_trans (a : List Char) :
    ∀ b c, strCmp a b ≤ 0 → strCmp b c ≤ 0 → strCmp a c ≤ 0 := by
  induction a with
  | nil => intro b c _ _; cases c <;> simp [strCmp]
  | cons x as ih =>
    intro b c h1 h2
    cases b with
    | nil => simp [strCmp] at h1
    | cons y bs =>
      cases c with
      | nil => simp [strCmp] at h2
      | cons z cs =>
        simp only [strCmp] at h1 h2 ⊢
        split_ifs at h1 h2 ⊢ <;> first
          | omega
          | exact ih bs cs h1 h2

/-- The series comparator order is transitive. -/
theorem seriesLe_trans (a b c : SeriesBook)
    (h1 : seriesLe a b = true) (h2 : seriesLe b c = true) : seriesLe a c = true := by
  simp only [seriesLe, decide_eq_true_eq, seriesCompare] at h1 h2 ⊢
  cases hA : jsTruthyNat a.seriesNumber <;> cases hB : jsTruthyNat b.seriesNumber <;>
    cases hC : jsTruthyNat c.seriesNumber <;>
    simp [hA, hB, hC] at h1 h2 ⊢ <;>
    first
      | omega
      | exact strCmp_le_trans _ _ _ h1 h2

/-- One direction of `strCmp _ _ ≤ 0` always holds. -/
theorem strCmp_total (a b : List Char) : strCmp a b ≤ 0 ∨ strCmp b a ≤ 0 := by
  rcases le_or_lt (strCmp a b) 0 with h | h
  · exact Or.inl h
  · refine Or.inr ?_
    rw [strCmp_swap]
    omega

/-- The series comparator order is total. -/
theorem seriesLe_total (a b : SeriesBook) : (seriesLe a b || seriesLe b a) = true := by
  rw [Bool.or_eq_true]
  simp only [seriesLe, decide_eq_true_eq, seriesCompare]
  cases hA : jsTruthyNat a.seriesNumber <;> cases hB : jsTruthyNat b.seriesNumber <;>
    simp [hA, hB]
  · exact strCmp_total _ _
  · omega

/-- The members of an insertion are the inserted element and the old
members. -/
theorem mem_insertSorted {α : Type} (le : α → α → Bool) (x z : α) (l : List α) :
    z ∈ insertSorted le x l ↔ z = x ∨ z ∈ l := by
  induction l with
  | nil => simp [insertSorted]
  | cons y ys ih =>
    by_cases h : le x y
    · simp [insertSorted, h]
    · simp [insertSorted, h, ih]
      tauto

/-- Inserting into a pairwise-ordered list keeps it pairwise ordered,
for a total and transitive Boolean order. -/
theorem pairwise_insertSorted {α : Type} (le : α → α → Bool)
    (htot : ∀ a b, (le a b || le b a) = true)
    (htrans : ∀ a b c, le a b = true → le b c = true → le a c = true)
    (x : α) (l : List α) (hl : List.Pairwise (fun a b => le a b = true) l) :
    List.Pairwise (fun a b => le a b = true) (insertSorted le x l) := by
  induction l with
  | nil => simp [insertSorted]
  | cons y ys ih =>
    rcases List.pairwise_cons.mp hl with ⟨hy, hys⟩
    by_cases h : le x y = true
    · rw [insertSorted, if_pos h]
      refine List.pairwise_cons.mpr ⟨?_, hl⟩
      intro z hz
      rcases List.mem_cons.mp hz with rfl | hz
      · exact h
      · exact htrans x y z h (hy z hz)
    · rw [insertSorted, if_neg h]
      have hyx : le y x = true := by
        have := htot x y
        rw [Bool.or_eq_true] at this
        tauto
      refine List.pairwise_cons.mpr ⟨?_, ih hys⟩
      intro z hz
      rcases (mem_insertSorted le x z ys).mp hz with rfl | hz
      · exact hyx
      · exact hy z hz

/-- The stable sort is pairwise ordered, for a total and transitive
Boolean order. -/
theorem pairwise_stableSort {α : Type} (le : α → α → Bool)
    (htot : ∀ a b, (le a b || le b a) = true)
    (htrans : ∀ a b c, le a b = true → le b c = true → le a c = true)
    (l : List α) :
    List.Pairwise (fun a b => le a b = true) (stableSort le l) := by
  induction l with
  | nil => simp [stableSort]
  | cons x xs ih => exact pairwise_insertSorted le htot htrans x _ ih

/-- The sorted list is pairwise ordered by the comparator. -/
theorem sortSeries_pairwise (l : List SeriesBook) :
    List.Pairwise (fun a b => seriesLe a b = true) (sortSeries l) :=
  pairwise_stableSort seriesLe seriesLe_total (fun a b c => seriesLe_trans a b c) l

/-- What the comparator order means element-wise. -/
theorem seriesLe_imp_actual (a b : SeriesBook) (h : seriesLe a b = true) :
    actualOrdered a b := by
  simp only [seriesLe, decide_eq_true_eq] at h
  unfold actualOrdered
  cases hA : jsTruthyNat a.seriesNumber <;> cases hB : jsTruthyNat b.seriesNumber <;>
    simp [seriesCompare, hA, hB] at h ⊢ <;> omega

/-- C8 (counterexample): on the concrete series lookup for
"Alpha (Saga #1)" whose fetch returns "Beta (Saga #0)" and
"Gamma (Saga #2)", the entry with the known series number 0 is sorted
*after* the entry numbered 2 (the comparator treats a zero series
number as falsy), so the result is not ordered as the claim states. -/
theorem c8_series_sort_counterexample :
    ¬ List.Pairwise claimOrdered
        (searchSeriesBooks cexYear cexFetch "A" "Alpha (Saga #1)" 20) := by
  intro h
  have hout : searchSeriesBooks cexYear cexFetch "A" "Alpha (Saga #1)" 20 =
      [ { id := "g2", title := "Gamma (Saga #2)", author := "Unknown Author",
          seriesNumber := some 2 },
        { id := "g0", title := "Beta (Saga #0)", author := "Unknown Author",
          seriesNumber := some 0 } ] := by decide
  rw [hout] at h
  have h2 := (List.pairwise_cons.mp h).1 _ (List.mem_singleton.mpr rfl)
  exact absurd (h2.1 (by decide) (by decide)) (by decide)

/-- C8 (amended): every `searchSeriesBooks` result list is ordered
with entries carrying a nonzero series number first in ascending
order; entries with a zero or missing series number come last,
ordered among themselves by title. -/
theorem c8_series_sort_order (getYear : String → String)
    (fetch : String → Nat → FetchOutcome) (author title : String) (maxResults : Nat) :
    List.Pairwise actualOrdered
      (searchSeriesBooks getYear fetch author title maxResults) := by
  have key : ∀ l, List.Pairwise actualOrdered (sortSeries l) := fun l =>
    (sortSeries_pairwise l).imp (fun h => seriesLe_imp_actual _ _ h)
  have hsplit : ∃ l, searchSeriesBooks getYear fetch author title maxResults =
      sortSeries l := by
    unfold searchSeriesBooks
    by_cases h : jsTruthyStr (extractSeriesInfo title).series <;>
      simp only [h, if_true, if_false, Bool.false_eq_true] <;> exact ⟨_, rfl⟩
  obtain ⟨l, hl⟩ := hsplit
  rw [hl]
  exact key l

end NovelNoted
